import Mathlib

/-
Verification of the product-grouping and normalization engine in
netlify/functions/process-excel.js.

The source file contains two concatenated script variants of the same
engine. The second variant (the handler using findValue,
createProductGroups, determineProductType, cleanSpec, cleanCondition,
createSEOTitle, estimatePrice) is embedded at top level below; the first
variant (groupProductsEnhanced, analyzeProduct, createEnhancedProductKey,
the normalize* family, determineCollections and its own createSEOTitle and
estimatePrice) is embedded in the namespace Enhanced.

Rows arrive from the tabular reader as string-keyed mappings whose cell
values are strings; they are modelled as association lists. JavaScript
object maps with insertion-order iteration are modelled as association
lists where a newly created key is appended at the end.
-/

/-- An inventory row: a mapping from column name to cell value. -/
abbrev Item := List (String × String)

/-- First-match lookup in an association list, mirroring JavaScript
property access on an object with no duplicate keys. -/
def aget? {α : Type} : List (String × α) → String → Option α
  | [], _ => none
  | (k, v) :: t, key => if k = key then some v else aget? t key

/-- JavaScript pattern: if the key is absent, bind it to an initial value;
insertion order puts the new key at the end. -/
def aensure {α : Type} (key : String) (init : α) (l : List (String × α)) :
    List (String × α) :=
  if (aget? l key).isSome then l else l ++ [(key, init)]

/-- Update the value stored at a key in place; no effect if the key is absent. -/
def amodify {α : Type} (key : String) (f : α → α) :
    List (String × α) → List (String × α)
  | [] => []
  | (k, v) :: t => if k = key then (k, f v) :: t else (k, v) :: amodify key f t

/-- JavaScript property read with absent keys read as the empty string
(a missing cell and an empty cell are both falsy strings downstream). -/
def lookup (item : Item) (key : String) : String := (aget? item key).getD ""

/-- JavaScript property read keeping absence visible. -/
def lookupOpt (item : Item) (key : String) : Option String := aget? item key

/-- Character-list test: the first list is an initial segment of the second. -/
def leadsWith : List Char → List Char → Bool
  | [], _ => true
  | _ :: _, [] => false
  | p :: ps, c :: cs => p == c && leadsWith ps cs

/-- Character-list substring occurrence test. -/
def containsSub : List Char → List Char → Bool
  | pat, [] => leadsWith pat []
  | pat, c :: cs => leadsWith pat (c :: cs) || containsSub pat cs

/-- JavaScript s.includes(pat): pat occurs as a substring of s. -/
def strIncludes (s pat : String) : Bool := containsSub pat.toList s.toList

/-- Uppercasing characterwise, the effect of toUpperCase on ASCII data. -/
def toUpperS (s : String) : String := String.mk (s.toList.map Char.toUpper)

/-- Lowercasing characterwise, the effect of toLowerCase on ASCII data. -/
def toLowerS (s : String) : String := String.mk (s.toList.map Char.toLower)

/-- Strip leading and trailing whitespace, the effect of trim. -/
def trimS (s : String) : String :=
  String.mk (((s.toList.dropWhile Char.isWhitespace).reverse.dropWhile
    Char.isWhitespace).reverse)

/-- First n characters of a string, the effect of substring(0, n) on ASCII. -/
def takeS (s : String) (n : Nat) : String := String.mk (s.toList.take n)

/-- Floor of a rational, computed from its reduced fraction. -/
def ratFloor (q : ℚ) : Int := q.num / q.den

/-- JavaScript Math.round on finite input: floor of the value plus one half. -/
def mathRound (q : ℚ) : Int := ratFloor (q + 1 / 2)

/-- JavaScript v || d for strings: the empty string is the only falsy string. -/
def orDefault (v d : String) : String := if v = "" then d else v

/-- Value of a list of decimal digit characters. -/
def digitsToNat (cs : List Char) : Nat :=
  cs.foldl (fun n c => 10 * n + (c.toNat - 48)) 0

/-- JavaScript parseInt on a string: skip leading whitespace, read an
optional sign and then a maximal run of leading digits; NaN (here: none)
when no digit follows. -/
def parseIntJS (s : String) : Option Int :=
  let cs := s.toList.dropWhile Char.isWhitespace
  match cs with
  | '-' :: rest =>
      let ds := rest.takeWhile Char.isDigit
      if ds.isEmpty then none else some (-(digitsToNat ds : Int))
  | '+' :: rest =>
      let ds := rest.takeWhile Char.isDigit
      if ds.isEmpty then none else some (digitsToNat ds : Int)
  | _ =>
      let ds := cs.takeWhile Char.isDigit
      if ds.isEmpty then none else some (digitsToNat ds : Int)

/-- First maximal run of digits anywhere in the string, as matched by the
regular expression group of digits used in estimatePrice. -/
def firstDigitRun (s : String) : Option Nat :=
  let ds := (s.toList.dropWhile (fun c => ¬ c.isDigit)).takeWhile Char.isDigit
  if ds.isEmpty then none else some (digitsToNat ds)

/-- Truth of parseInt(year) < 2020 in JavaScript: false when parseInt
yields NaN, since every comparison with NaN is false. -/
def yearBelow2020 (year : String) : Bool :=
  match parseIntJS year with
  | some n => n < 2020
  | none => false

/-- Source line 918: parseInt(findValue(item, [Stock, Quantity, Qty])) || 1.
Zero and NaN are both falsy, so they fall back to 1. -/
def stockOr1 (s : String) : Int :=
  match parseIntJS s with
  | some n => if n = 0 then 1 else n
  | none => 1

/-- Source lines 893-900: return the first of the candidate column names
whose cell is present and non-blank, trimmed; empty string when none is. -/
def findValue (item : Item) : List String → String
  | [] => ""
  | n :: rest =>
      if trimS (lookup item n) ≠ "" then trimS (lookup item n)
      else findValue item rest

/-- Source lines 988-1013: product type from model with category fallback. -/
def determineProductType (model category : String) : String :=
  let modelLower := (toLowerS model)
  let categoryLower := (toLowerS category)
  if strIncludes modelLower "macbook pro" then "MacBook Pro"
  else if strIncludes modelLower "macbook air" then "MacBook Air"
  else if strIncludes modelLower "macbook" then "MacBook"
  else if strIncludes modelLower "ipad pro" then "iPad Pro"
  else if strIncludes modelLower "ipad air" then "iPad Air"
  else if strIncludes modelLower "ipad mini" then "iPad Mini"
  else if strIncludes modelLower "ipad" then "iPad"
  else if strIncludes modelLower "iphone" then "iPhone"
  else if strIncludes modelLower "imac" then "iMac"
  else if strIncludes modelLower "mac mini" then "Mac Mini"
  else if strIncludes modelLower "mac studio" then "Mac Studio"
  else if strIncludes modelLower "airpod" then "AirPods"
  else if strIncludes categoryLower "laptop" then "MacBook"
  else if strIncludes categoryLower "tablet" then "iPad"
  else if strIncludes categoryLower "phone" then "iPhone"
  else if strIncludes categoryLower "desktop" then "iMac"
  else orDefault category "Apple Product"

/-- Source lines 1016-1019: trim a spec value, with Unknown for blanks. -/
def cleanSpec (spec : String) : String :=
  if spec = "" ∨ spec = "Unknown" then "Unknown" else trimS spec

/-- Source lines 1022-1034: condition grading by case-insensitive substring
containment, with default grade A. Note there is no P branch. -/
def cleanCondition (condition : String) : String :=
  if condition = "" then "A"
  else
    let conditionUpper := trimS (toUpperS condition)
    if strIncludes conditionUpper "A" || strIncludes conditionUpper "EXCELLENT" then "A"
    else if strIncludes conditionUpper "B" || strIncludes conditionUpper "VERY GOOD" then "B"
    else if strIncludes conditionUpper "C" || strIncludes conditionUpper "GOOD" then "C"
    else if strIncludes conditionUpper "D" || strIncludes conditionUpper "FAIR" then "D"
    else "A"

/-- Source lines 1037-1051: SEO title from type and non-Unknown specs. -/
def createSEOTitle (productType processor storage memory : String) : String :=
  let specs : List String :=
    (if processor ≠ "" ∧ processor ≠ "Unknown" then [processor] else [])
      ++ (if storage ≠ "" ∧ storage ≠ "Unknown" then [storage] else [])
      ++ (if memory ≠ "" ∧ memory ≠ "Unknown" then [memory] else [])
  let title :=
    if specs.length > 0 then productType ++ " - " ++ String.intercalate ", " specs
    else productType
  title ++ " | Certified Refurbished"

/-- Source lines 1055-1068: fixed per-type base price table; unrecognized
types read 999 through the || fallback. -/
def basePriceOf (productType : String) : ℚ :=
  if productType = "MacBook Pro" then 1999
  else if productType = "MacBook Air" then 1299
  else if productType = "MacBook" then 1199
  else if productType = "iPad Pro" then 899
  else if productType = "iPad Air" then 649
  else if productType = "iPad" then 449
  else if productType = "iPad Mini" then 599
  else if productType = "iPhone" then 799
  else if productType = "iMac" then 1499
  else if productType = "Mac Studio" then 2199
  else if productType = "Mac Mini" then 799
  else if productType = "AirPods" then 179
  else 999

/-- Source lines 1054-1083: price estimate. The storage adjustment keys off
the first digit run of the storage string (so the string 1TB reads as 1);
the factors 1.3 and 1.15 are exact in the reachable value range, where no
half-integer products occur, so rational arithmetic agrees with the
floating-point source. -/
def estimatePrice (productType storage : String) : Int :=
  let basePrice : ℚ := basePriceOf productType
  let adjusted : ℚ :=
    if storage ≠ "" ∧ storage ≠ "Unknown" then
      match firstDigitRun storage with
      | some storageAmount =>
          if storageAmount ≥ 1000 then basePrice * (13 / 10)
          else if storageAmount ≥ 512 then basePrice * (23 / 20)
          else basePrice
      | none => basePrice
    else basePrice
  mathRound adjusted

/-- Replace every character outside a-z, A-Z, 0-9 by an underscore,
mirroring the regular expression replacement on source line 931. -/
def sanitizeKey (s : String) : String :=
  String.mk (s.toList.map (fun c => if c.isAlphanum then c else '_'))

/-- Source line 931: the grouping key joins productType, processor and
storage with hyphens and then sanitizes. Memory is not part of the key. -/
def groupKeyOf (productType cleanProcessor cleanStorage : String) : String :=
  sanitizeKey (productType ++ "-" ++ cleanProcessor ++ "-" ++ cleanStorage)

/-- Per-item record appended to a group, source lines 949-956. -/
structure PItem where
  model : String
  color : String
  condition : String
  serialNumber : String
  stock : Int
  originalData : Item
deriving DecidableEq

/-- Variant record, source lines 961-966. -/
structure PVariant where
  color : String
  condition : String
  quantity : Int
  serialNumbers : List String
deriving DecidableEq

/-- Product group record, source lines 935-945. -/
structure PGroup where
  productType : String
  processor : String
  storage : String
  memory : String
  seoTitle : String
  basePrice : Int
  items : List PItem
  variants : List (String × PVariant)
  collections : List String
deriving DecidableEq

/-- Mutable accumulator of createProductGroups: the productGroups and
categories objects. -/
structure AggState where
  groups : List (String × PGroup)
  cats : List (String × Nat)
deriving DecidableEq

/-- The empty accumulator. -/
def aggEmpty : AggState := ⟨[], []⟩

/-- JavaScript pattern categories[k] = (categories[k] || 0) + 1. -/
def acount (key : String) (l : List (String × Nat)) : List (String × Nat) :=
  if (aget? l key).isSome then amodify key (· + 1) l else l ++ [(key, 1)]

/-- Source lines 930-975: the rest of the per-row body of
createProductGroups after the binding of cleanCondition. In the shipped
code this continuation is unreachable (see rowBody), but it is embedded
here so the grouping logic it spells out can be examined directly. The
parameters carry the names of the local constants of the source. -/
def rowCont (st : AggState) (item : Item)
    (model productType cleanProcessor cleanStorage cleanMemory cleanColor
      cleanConditionVal serialNumber : String) (stock : Int) : AggState :=
  let groupKey := groupKeyOf productType cleanProcessor cleanStorage
  let initGroup : PGroup :=
    { productType := productType
      processor := cleanProcessor
      storage := cleanStorage
      memory := cleanMemory
      seoTitle := createSEOTitle productType cleanProcessor cleanStorage cleanMemory
      basePrice := estimatePrice productType cleanStorage
      items := []
      variants := []
      collections := [productType, "Apple", "Refurbished"] }
  let newItem : PItem :=
    { model := model, color := cleanColor, condition := cleanConditionVal,
      serialNumber := serialNumber, stock := stock, originalData := item }
  let groups := aensure groupKey initGroup st.groups
  let groups := amodify groupKey (fun g =>
    { g with items := g.items ++ [newItem] }) groups
  let variantKey := cleanColor ++ "-" ++ cleanConditionVal
  let initVariant : PVariant :=
    { color := cleanColor, condition := cleanConditionVal,
      quantity := 0, serialNumbers := [] }
  let groups := amodify groupKey (fun g =>
    { g with variants := aensure variantKey initVariant g.variants }) groups
  let groups := amodify groupKey (fun g =>
    { g with variants := amodify variantKey (fun v =>
        { v with quantity := v.quantity + stock,
                 serialNumbers :=
                   if serialNumber ≠ "" then v.serialNumbers ++ [serialNumber]
                   else v.serialNumbers }) g.variants }) groups
  { groups := groups, cats := acount productType st.cats }

/-- The ReferenceError raised on source line 928, where the block-scoped
constant cleanCondition is read inside its own initializer, in its temporal
dead zone, shadowing the function of the same name. -/
def tdzError : String :=
  "ReferenceError: cannot access cleanCondition before initialization"

/-- Source lines 908-975: body of one iteration of the forEach loop of
createProductGroups. The binding on line 928 reads the constant
cleanCondition before its initialization, so every row exits here with a
ReferenceError; the continuation rowCont is dead code. -/
def rowBody (st : AggState) (item : Item) (index : Nat) :
    Except String AggState := do
  let model := orDefault (findValue item ["Model", "Product", "Name"])
    ("Product " ++ toString (index + 1))
  let category := orDefault (findValue item ["Sub-Category", "Category", "Type"])
    "Apple Product"
  let processor := orDefault (findValue item ["Processor", "CPU", "Chip"]) "Unknown"
  let storage := orDefault (findValue item ["Storage", "SSD", "Hard Drive", "HDD"])
    "Unknown"
  let memory := orDefault (findValue item ["Memory", "RAM", "System Memory"]) "Unknown"
  let color := orDefault (findValue item ["Color", "Colour", "Finish"]) "Default"
  let _condition := orDefault (findValue item ["Condition", "Grade", "Quality"]) "A"
  let serialNumber := findValue item ["Serial Number", "Serial", "S/N", "SN"]
  let stock := stockOr1 (findValue item ["Stock", "Quantity", "Qty"])
  let productType := determineProductType model category
  let cleanProcessor := cleanSpec processor
  let cleanStorage := cleanSpec storage
  let cleanMemory := cleanSpec memory
  let cleanColor := cleanSpec color
  let cleanConditionVal ← (Except.error tdzError : Except String String)
  pure (rowCont st item model productType cleanProcessor cleanStorage cleanMemory
    cleanColor cleanConditionVal serialNumber stock)

/-- The forEach loop of createProductGroups with its per-row try/catch:
a row whose body raises is skipped and the accumulator is left unchanged. -/
def aggLoop : List Item → AggState → Nat → AggState
  | [], st, _ => st
  | it :: rest, st, i =>
      match rowBody st it i with
      | Except.ok s => aggLoop rest s (i + 1)
      | Except.error _ => aggLoop rest st (i + 1)

/-- Result shape of createProductGroups, source line 985. -/
structure AggResult where
  productGroups : List (String × PGroup)
  categories : List (String × Nat)
  totalItems : Nat
  groupCount : Nat
deriving DecidableEq

/-- Source lines 903-986: createProductGroups. totalItems is the length of
the input list, computed after the loop regardless of skipped rows. -/
def createProductGroups (appleProducts : List Item) : AggResult :=
  let st := aggLoop appleProducts aggEmpty 0
  { productGroups := st.groups
    categories := st.cats
    totalItems := appleProducts.length
    groupCount := st.groups.length }

/-- Resolved category of a row in the Apple-product filter, source line 781. -/
def resolvedCategory (item : Item) : String :=
  findValue item ["Sub-Category", "Category", "Type", "Product Type",
    "sub-category", "category", "Sub Category"]

/-- Resolved model of a row in the Apple-product filter, source line 782. -/
def resolvedModel (item : Item) : String :=
  findValue item ["Model", "Product", "Name", "Title", "model", "product"]

/-- Resolved brand of a row in the Apple-product filter, source line 783. -/
def resolvedBrand (item : Item) : String :=
  findValue item ["Brand", "Manufacturer", "Make", "brand", "manufacturer"]

/-- Resolved stock of a row in the Apple-product filter, source line 784. -/
def resolvedStock (item : Item) : String :=
  findValue item ["Stock", "Quantity", "Qty", "Available", "stock", "quantity"]

/-- Source lines 778-820: the appleProducts row filter. A row with a
non-empty resolved stock equal to 0 or containing out is excluded; otherwise
the row is kept when brand contains apple, or category contains one of
laptop, macbook, tablet, phone, desktop, or model contains one of macbook,
ipad, iphone, imac, airpod. -/
def classify (item : Item) : Bool :=
  if resolvedStock item ≠ "" ∧
      (resolvedStock item = "0" ∨
        strIncludes (toLowerS (resolvedStock item)) "out" = true) then false
  else
    strIncludes (toLowerS (resolvedBrand item)) "apple"
    || strIncludes (toLowerS (resolvedCategory item)) "laptop"
    || strIncludes (toLowerS (resolvedCategory item)) "macbook"
    || strIncludes (toLowerS (resolvedCategory item)) "tablet"
    || strIncludes (toLowerS (resolvedCategory item)) "phone"
    || strIncludes (toLowerS (resolvedCategory item)) "desktop"
    || strIncludes (toLowerS (resolvedModel item)) "macbook"
    || strIncludes (toLowerS (resolvedModel item)) "ipad"
    || strIncludes (toLowerS (resolvedModel item)) "iphone"
    || strIncludes (toLowerS (resolvedModel item)) "imac"
    || strIncludes (toLowerS (resolvedModel item)) "airpod"

namespace Enhanced

/-- Remove every whitespace character, the effect of the global
whitespace-to-empty replacement used by the storage and memory normalizers. -/
def stripWs (s : String) : String :=
  String.mk (s.toList.filter (fun c => ¬ c.isWhitespace))

/-- Replace every maximal run of whitespace by the single character r,
the effect of the global whitespace-run replacement in the first variant. -/
def replaceWsRunsAux (r : Char) : List Char → Bool → List Char
  | [], _ => []
  | c :: cs, inRun =>
      if c.isWhitespace then
        if inRun then replaceWsRunsAux r cs true
        else r :: replaceWsRunsAux r cs true
      else c :: replaceWsRunsAux r cs false

/-- String-level wrapper of replaceWsRunsAux. -/
def replaceWsRuns (r : Char) (s : String) : String :=
  String.mk (replaceWsRunsAux r s.toList false)

/-- Source lines 434-455: model canonicalization, first match wins;
non-empty unmatched input passes through unchanged. -/
def normalizeModel (model : String) : String :=
  if model = "" then "Unknown"
  else
    let modelStr := (toLowerS model)
    if strIncludes modelStr "macbook pro" then "MacBook Pro"
    else if strIncludes modelStr "macbook air" then "MacBook Air"
    else if strIncludes modelStr "macbook" then "MacBook"
    else if strIncludes modelStr "ipad pro" then "iPad Pro"
    else if strIncludes modelStr "ipad air" then "iPad Air"
    else if strIncludes modelStr "ipad mini" then "iPad Mini"
    else if strIncludes modelStr "ipad" then "iPad"
    else if strIncludes modelStr "iphone" then "iPhone"
    else if strIncludes modelStr "imac" then "iMac"
    else if strIncludes modelStr "mac studio" then "Mac Studio"
    else if strIncludes modelStr "mac mini" then "Mac Mini"
    else if strIncludes modelStr "airpod" then "AirPods"
    else if strIncludes modelStr "magic mouse" then "Magic Mouse"
    else if strIncludes modelStr "magic" && strIncludes modelStr "keyboard" then "Magic Keyboard"
    else model

/-- Source lines 457-483: processor canonicalization; unmatched input is
truncated to its first 20 characters. -/
def normalizeProcessor (processor : String) : String :=
  if processor = "" then "Unknown"
  else
    let procStr := (toLowerS processor)
    if strIncludes procStr "m3 pro" then "M3 Pro"
    else if strIncludes procStr "m3 max" then "M3 Max"
    else if strIncludes procStr "m3" then "M3"
    else if strIncludes procStr "m2 pro" then "M2 Pro"
    else if strIncludes procStr "m2 max" then "M2 Max"
    else if strIncludes procStr "m2" then "M2"
    else if strIncludes procStr "m1 pro" then "M1 Pro"
    else if strIncludes procStr "m1 max" then "M1 Max"
    else if strIncludes procStr "m1" then "M1"
    else if strIncludes procStr "i9" then "Intel i9"
    else if strIncludes procStr "i7" then "Intel i7"
    else if strIncludes procStr "i5" then "Intel i5"
    else if strIncludes procStr "i3" then "Intel i3"
    else if strIncludes procStr "intel" then "Intel"
    else if strIncludes procStr "airpods" && strIncludes procStr "2nd" then "AirPods 2nd Gen"
    else if strIncludes procStr "airpods" && strIncludes procStr "3rd" then "AirPods 3rd Gen"
    else if strIncludes procStr "airpods" && strIncludes procStr "pro" then "AirPods Pro"
    else takeS processor 20

/-- Source lines 485-501: storage canonicalization. -/
def normalizeStorage (storage : String) : String :=
  if storage = "" then "Unknown"
  else
    let storageStr := stripWs (toLowerS storage)
    if strIncludes storageStr "8tb" then "8TB"
    else if strIncludes storageStr "4tb" then "4TB"
    else if strIncludes storageStr "2tb" then "2TB"
    else if strIncludes storageStr "1tb" || strIncludes storageStr "1000gb" then "1TB"
    else if strIncludes storageStr "512gb" then "512GB"
    else if strIncludes storageStr "256gb" then "256GB"
    else if strIncludes storageStr "128gb" then "128GB"
    else if strIncludes storageStr "64gb" then "64GB"
    else if strIncludes storageStr "32gb" then "32GB"
    else storage

/-- Source lines 503-516: memory canonicalization. -/
def normalizeMemory (memory : String) : String :=
  if memory = "" then "Unknown"
  else
    let memStr := stripWs (toLowerS memory)
    if strIncludes memStr "128gb" then "128GB"
    else if strIncludes memStr "64gb" then "64GB"
    else if strIncludes memStr "32gb" then "32GB"
    else if strIncludes memStr "16gb" then "16GB"
    else if strIncludes memStr "8gb" then "8GB"
    else if strIncludes memStr "4gb" then "4GB"
    else memory

/-- Source lines 518-538: color canonicalization. -/
def normalizeColor (color : String) : String :=
  if color = "" then "Default"
  else
    let colorStr := (toLowerS color)
    if strIncludes colorStr "space gray" || strIncludes colorStr "space grey" then "Space Gray"
    else if strIncludes colorStr "silver" then "Silver"
    else if strIncludes colorStr "gold" then "Gold"
    else if strIncludes colorStr "rose gold" then "Rose Gold"
    else if strIncludes colorStr "midnight" then "Midnight"
    else if strIncludes colorStr "starlight" then "Starlight"
    else if strIncludes colorStr "blue" then "Blue"
    else if strIncludes colorStr "purple" then "Purple"
    else if strIncludes colorStr "pink" then "Pink"
    else if strIncludes colorStr "green" then "Green"
    else if strIncludes colorStr "red" then "Red"
    else if strIncludes colorStr "black" then "Black"
    else if strIncludes colorStr "white" then "White"
    else color

/-- Source lines 540-552: condition grading by exact match on the
uppercased value; unrecognized non-empty input passes through unchanged. -/
def normalizeCondition (condition : String) : String :=
  if condition = "" then "A"
  else
    let condStr := toUpperS condition
    if condStr = "A" ∨ condStr = "EXCELLENT" then "A"
    else if condStr = "B" ∨ condStr = "VERY GOOD" then "B"
    else if condStr = "C" ∨ condStr = "GOOD" then "C"
    else if condStr = "D" ∨ condStr = "FAIR" then "D"
    else if condStr = "P" ∨ condStr = "POOR" then "P"
    else condition

/-- Normalized attribute record returned by analyzeProduct. -/
structure ProductInfo where
  productType : String
  model : String
  displaySize : String
  processor : String
  storage : String
  memory : String
  color : String
  condition : String
  year : String
  originalModel : String
deriving DecidableEq

/-- Source lines 258-357: analyzeProduct. The productType, displaySize and
year cascade reads the raw fields; the returned record applies the
normalizers. -/
def analyzeProduct (item : Item) : ProductInfo :=
  let model := lookup item "Model"
  let processor := lookup item "Processor"
  let category := (toLowerS (lookup item "Sub-Category"))
  let storage := lookup item "Storage"
  let memory := lookup item "Memory"
  let color := lookup item "Color"
  let condition := orDefault (lookup item "Condition") "A"
  let ml := (toLowerS model)
  let pl := (toLowerS processor)
  let tdy : String × String × String :=
    if strIncludes category "laptop" || strIncludes category "macbook"
        || strIncludes ml "macbook" || strIncludes pl "macbook" then
      let td : String × String :=
        if strIncludes pl "air" || strIncludes category "air" || strIncludes ml "air" then
          ("MacBook Air", "13-inch")
        else
          ("MacBook Pro",
            if strIncludes processor "16\"" || strIncludes processor "16-inch" then "16-inch"
            else if strIncludes processor "14\"" || strIncludes processor "14-inch" then "14-inch"
            else "13-inch")
      let year :=
        if strIncludes processor "2023" then "2023"
        else if strIncludes processor "2022" then "2022"
        else if strIncludes processor "2021" then "2021"
        else if strIncludes processor "2020" then "2020"
        else if strIncludes processor "2019" then "2019"
        else ""
      (td.1, td.2, year)
    else if strIncludes category "tablet" || strIncludes ml "ipad" then
      if strIncludes ml "pro" then
        ("iPad Pro",
          if strIncludes model "11" then "11-inch"
          else if strIncludes model "12.9" then "12.9-inch"
          else "", "")
      else if strIncludes ml "air" then ("iPad Air", "10.9-inch", "")
      else if strIncludes ml "mini" then ("iPad Mini", "8.3-inch", "")
      else ("iPad", "10.2-inch", "")
    else if strIncludes category "phone" || strIncludes ml "iphone" then
      ("iPhone",
        if strIncludes ml "pro max" then "Pro Max"
        else if strIncludes ml "pro" then "Pro"
        else if strIncludes ml "plus" then "Plus"
        else if strIncludes ml "mini" then "mini"
        else "", "")
    else if strIncludes category "desktop" || strIncludes ml "imac" then
      ("iMac",
        if strIncludes model "24" || strIncludes processor "24" then "24-inch"
        else if strIncludes model "27" || strIncludes processor "27" then "27-inch"
        else "", "")
    else if strIncludes ml "mac studio" then ("Mac Studio", "", "")
    else if strIncludes ml "mac mini" || strIncludes category "mini" then ("Mac Mini", "", "")
    else if strIncludes category "accessory" || strIncludes ml "airpod"
        || strIncludes ml "magic" || strIncludes ml "keyboard" then
      if strIncludes ml "airpod" then ("AirPods", "", "")
      else if strIncludes ml "magic mouse" then ("Magic Mouse", "", "")
      else if strIncludes ml "magic keyboard" || strIncludes ml "kybd" then
        ("Magic Keyboard", "", "")
      else ("Apple Accessory", "", "")
    else ("Unknown", "", "")
  { productType := tdy.1
    model := normalizeModel model
    displaySize := tdy.2.1
    processor := normalizeProcessor processor
    storage := normalizeStorage storage
    memory := normalizeMemory memory
    color := normalizeColor color
    condition := normalizeCondition condition
    year := tdy.2.2
    originalModel := model }

/-- Source lines 359-361: the enhanced grouping key joins productType,
displaySize, processor, storage and memory with underscores and replaces
whitespace runs (only) by underscores. -/
def createEnhancedProductKey (productInfo : ProductInfo) : String :=
  replaceWsRuns '_'
    (productInfo.productType ++ "_" ++ productInfo.displaySize ++ "_"
      ++ productInfo.processor ++ "_" ++ productInfo.storage ++ "_"
      ++ productInfo.memory)

/-- Source lines 363-387: SEO title of the first variant. -/
def createSEOTitle (productInfo : ProductInfo) : String :=
  let title := productInfo.productType
  let title := if productInfo.displaySize ≠ "" then title ++ " " ++ productInfo.displaySize else title
  let title :=
    if productInfo.processor ≠ "" ∧ productInfo.processor ≠ "Unknown" then
      title ++ " " ++ productInfo.processor
    else title
  let title :=
    if productInfo.storage ≠ "" ∧ productInfo.storage ≠ "Unknown" then
      title ++ " - " ++ productInfo.storage
    else title
  let title :=
    if productInfo.memory ≠ "" ∧ productInfo.memory ≠ "Unknown" then
      title ++ ", " ++ productInfo.memory ++ " RAM"
    else title
  let title := if productInfo.year ≠ "" then title ++ " (" ++ productInfo.year ++ ")" else title
  trimS (replaceWsRuns ' ' title)

/-- Deduplication preserving first insertion, the effect of building a Set
from the collections list and spreading it back. -/
def dedupAux : List String → List String → List String
  | [], _ => []
  | x :: xs, seen => if x ∈ seen then dedupAux xs seen else x :: dedupAux xs (x :: seen)

/-- Entry point of dedupAux with nothing seen yet. -/
def dedupKeepFirst (l : List String) : List String := dedupAux l []

/-- Source lines 389-432: collection tags of the first variant. -/
def determineCollections (productInfo : ProductInfo) : List String :=
  let collections := ["All Products", productInfo.productType]
  let collections :=
    if strIncludes productInfo.productType "MacBook" then
      collections ++ ["MacBooks"]
        ++ (if strIncludes productInfo.processor "M1" || strIncludes productInfo.processor "M2"
              || strIncludes productInfo.processor "M3" then ["Apple Silicon"] else [])
        ++ (if strIncludes productInfo.processor "Intel" then ["Intel MacBooks"] else [])
    else collections
  let collections :=
    if strIncludes productInfo.productType "iPad" then collections ++ ["iPads"] else collections
  let collections :=
    if strIncludes productInfo.productType "iPhone" then collections ++ ["iPhones"] else collections
  let collections :=
    if strIncludes productInfo.productType "iMac" || strIncludes productInfo.productType "Mac Studio"
        || strIncludes productInfo.productType "Mac Mini" then
      collections ++ ["Desktops"]
    else collections
  let collections :=
    if strIncludes productInfo.productType "AirPods" || strIncludes productInfo.productType "Magic"
        || strIncludes productInfo.productType "Apple Accessory" then
      collections ++ ["Accessories"]
    else collections
  let collections :=
    if productInfo.displaySize ≠ "" then collections ++ [productInfo.displaySize ++ " Devices"]
    else collections
  let collections :=
    if productInfo.processor ≠ "" ∧ productInfo.processor ≠ "Unknown" then
      collections ++ [productInfo.processor]
    else collections
  let collections :=
    if productInfo.year ≠ "" then collections ++ [productInfo.year ++ " Models"]
    else collections
  dedupKeepFirst collections

/-- Source lines 554-623: price estimate of the first variant; pure integer
arithmetic. -/
def estimatePrice (productInfo : ProductInfo) : Int :=
  let basePrice : Int :=
    if productInfo.productType = "MacBook Pro" then
      1200 + (if productInfo.displaySize = "16-inch" then 400 else 0)
        + (if productInfo.displaySize = "14-inch" then 200 else 0)
    else if productInfo.productType = "MacBook Air" then 800
    else if productInfo.productType = "iPad Pro" then
      600 + (if productInfo.displaySize = "12.9-inch" then 200 else 0)
    else if productInfo.productType = "iPad Air" then 450
    else if productInfo.productType = "iPad" then 250
    else if productInfo.productType = "iPad Mini" then 350
    else if productInfo.productType = "iPhone" then
      400 + (if strIncludes productInfo.displaySize "Pro" then 300 else 0)
    else if productInfo.productType = "iMac" then
      1000 + (if productInfo.displaySize = "27-inch" then 500 else 0)
    else if productInfo.productType = "Mac Studio" then 1500
    else if productInfo.productType = "Mac Mini" then 500
    else if productInfo.productType = "AirPods" then
      100 + (if strIncludes productInfo.processor "Pro" then 50 else 0)
    else 200
  let basePrice := basePrice +
    (if strIncludes productInfo.processor "M3" then 300
     else if strIncludes productInfo.processor "M2" then 200
     else if strIncludes productInfo.processor "M1" then 100
     else 0)
  let basePrice := basePrice +
    (if strIncludes productInfo.processor "Pro" || strIncludes productInfo.processor "Max" then 300
     else 0)
  let basePrice := basePrice +
    (if strIncludes productInfo.storage "2TB" then 400
     else if strIncludes productInfo.storage "1TB" then 200
     else if strIncludes productInfo.storage "512GB" then 100
     else 0)
  let basePrice := basePrice +
    (if strIncludes productInfo.memory "64GB" then 600
     else if strIncludes productInfo.memory "32GB" then 300
     else if strIncludes productInfo.memory "16GB" then 150
     else 0)
  let basePrice := basePrice +
    (if productInfo.year = "2023" then (200 : Int)
     else if productInfo.year = "2022" then 100
     else if productInfo.year = "2021" then 50
     else if productInfo.year ≠ "" ∧ yearBelow2020 productInfo.year = true then -100
     else 0)
  max basePrice 50

/-- Variant record of the first variant, source lines 240-246. -/
structure EVariant where
  color : String
  condition : String
  quantity : Nat
  items : List Item
  serialNumbers : List (Option String)
deriving DecidableEq

/-- Group record of the first variant, source lines 220-234. -/
structure EGroup where
  productType : String
  model : String
  displaySize : String
  processor : String
  storage : String
  memory : String
  year : String
  seoTitle : String
  collections : List String
  basePrice : Int
  items : List Item
  variants : List (String × EVariant)
  originalCategory : Option String
deriving DecidableEq

/-- Variant key of the first variant, source line 237. -/
def vkOfInfo (productInfo : ProductInfo) : String :=
  orDefault productInfo.color "Default" ++ "_" ++ orDefault productInfo.condition "A"

/-- Source lines 215-253: body of one iteration of the forEach loop of
groupProductsEnhanced. -/
def eStep (productGroups : List (String × EGroup)) (item : Item) :
    List (String × EGroup) :=
  let productInfo := analyzeProduct item
  let productKey := createEnhancedProductKey productInfo
  let initGroup : EGroup :=
    { productType := productInfo.productType
      model := productInfo.model
      displaySize := productInfo.displaySize
      processor := productInfo.processor
      storage := productInfo.storage
      memory := productInfo.memory
      year := productInfo.year
      seoTitle := createSEOTitle productInfo
      collections := determineCollections productInfo
      basePrice := estimatePrice productInfo
      items := []
      variants := []
      originalCategory := lookupOpt item "Sub-Category" }
  let variantKey := vkOfInfo productInfo
  let initVariant : EVariant :=
    { color := orDefault productInfo.color "Default"
      condition := orDefault productInfo.condition "A"
      quantity := 0
      items := []
      serialNumbers := [] }
  let productGroups := aensure productKey initGroup productGroups
  let productGroups := amodify productKey (fun g =>
    { g with variants := aensure variantKey initVariant g.variants }) productGroups
  let productGroups := amodify productKey (fun g =>
    { g with variants := amodify variantKey (fun v =>
        { v with quantity := v.quantity + 1,
                 items := v.items ++ [item],
                 serialNumbers :=
                   v.serialNumbers ++ [lookupOpt item "Serial Number"] }) g.variants }) productGroups
  let productGroups := amodify productKey (fun g =>
    { g with items := g.items ++ [item] }) productGroups
  productGroups

/-- Source lines 212-256: groupProductsEnhanced folds eStep over the rows. -/
def groupProductsEnhanced (products : List Item) : List (String × EGroup) :=
  products.foldl eStep []

/-- Group key a row is assigned by the first variant. -/
def keyOf (item : Item) : String := createEnhancedProductKey (analyzeProduct item)

/-- Variant key a row is assigned by the first variant. -/
def vkOf (item : Item) : String := vkOfInfo (analyzeProduct item)

end Enhanced

/-- Quantity stored for group key k, variant key vk; zero when absent. -/
def quantityAtN (groups : List (String × Enhanced.EGroup)) (k vk : String) : Nat :=
  match aget? groups k with
  | some g =>
      match aget? g.variants vk with
      | some v => v.quantity
      | none => 0
  | none => 0

/-- Items list length stored for a group key; zero when absent. -/
def itemsLenAt (groups : List (String × Enhanced.EGroup)) (k : String) : Nat :=
  match aget? groups k with
  | some g => g.items.length
  | none => 0

/-- Modelled from the claim wording for C2: a grouping key that joins
productType, processor, storage and memory and replaces every
non-alphanumeric character by an underscore. For comparison with
groupKeyOf, which omits memory. -/
def specGroupKey (productType processor storage memory : String) : String :=
  sanitizeKey (productType ++ "-" ++ processor ++ "-" ++ storage ++ "-" ++ memory)

/-- Modelled from the claim wording for C6: the inclusion rule with the
full keyword sets (category also matching accessory, accessories, mini,
air, pro; model also matching magic), under the same out-of-stock rule.
For comparison with classify. -/
def claimClassify (item : Item) : Bool :=
  if resolvedStock item ≠ "" ∧
      (resolvedStock item = "0" ∨
        strIncludes (toLowerS (resolvedStock item)) "out" = true) then false
  else
    strIncludes (toLowerS (resolvedBrand item)) "apple"
    || strIncludes (toLowerS (resolvedCategory item)) "laptop"
    || strIncludes (toLowerS (resolvedCategory item)) "macbook"
    || strIncludes (toLowerS (resolvedCategory item)) "tablet"
    || strIncludes (toLowerS (resolvedCategory item)) "phone"
    || strIncludes (toLowerS (resolvedCategory item)) "desktop"
    || strIncludes (toLowerS (resolvedCategory item)) "accessory"
    || strIncludes (toLowerS (resolvedCategory item)) "accessories"
    || strIncludes (toLowerS (resolvedCategory item)) "mini"
    || strIncludes (toLowerS (resolvedCategory item)) "air"
    || strIncludes (toLowerS (resolvedCategory item)) "pro"
    || strIncludes (toLowerS (resolvedModel item)) "macbook"
    || strIncludes (toLowerS (resolvedModel item)) "ipad"
    || strIncludes (toLowerS (resolvedModel item)) "iphone"
    || strIncludes (toLowerS (resolvedModel item)) "imac"
    || strIncludes (toLowerS (resolvedModel item)) "airpod"
    || strIncludes (toLowerS (resolvedModel item)) "magic"

/-- Modelled from the claim wording for C4: the processor-tier adjustment
(M3 times 1.2, M2 times 1.1, M1 times 1.0, Intel times 0.85). -/
def specProcessorAdj (processor : String) : ℚ :=
  if strIncludes processor "M3" then 12 / 10
  else if strIncludes processor "M2" then 11 / 10
  else if strIncludes processor "M1" then 1
  else if strIncludes processor "Intel" then 85 / 100
  else 1

/-- Modelled from the claim wording for C4: storage capacity in GB, with a
TB unit scaling the leading number by 1000. -/
def specStorageGB (storage : String) : Nat :=
  match firstDigitRun storage with
  | some n => if strIncludes (toLowerS storage) "tb" then n * 1000 else n
  | none => 0

/-- Modelled from the claim wording for C4: the storage-tier adjustment
(at least 1TB times 1.3, at least 512GB times 1.15). -/
def specStorageAdj (storage : String) : ℚ :=
  if specStorageGB storage ≥ 1000 then 13 / 10
  else if specStorageGB storage ≥ 512 then 23 / 20
  else 1

/-- Modelled from the claim wording for C4: base price as table value times
processor adjustment times storage adjustment, rounded. For comparison
with estimatePrice. -/
def specBasePrice (productType processor storage : String) : Int :=
  mathRound (basePriceOf productType * specProcessorAdj processor * specStorageAdj storage)

/-- Storage adjustment actually applied by estimatePrice, phrased as a
factor: it keys off the first digit run of the raw storage string, so 1TB
and 2TB read as 1 and 2 and receive no adjustment. -/
def amendedStorageAdj (storage : String) : ℚ :=
  match firstDigitRun storage with
  | some n => if n ≥ 1000 then 13 / 10 else if n ≥ 512 then 23 / 20 else 1
  | none => 1

/-- Amended price model for C4: table value times the storage adjustment
only, rounded; there is no processor adjustment. -/
def amendedBasePrice (productType storage : String) : Int :=
  mathRound (basePriceOf productType * amendedStorageAdj storage)

theorem rowBody_error (st : AggState) (item : Item) (index : Nat) :
    rowBody st item index = Except.error tdzError := rfl

theorem aggLoop_const (items : List Item) :
    ∀ (st : AggState) (i : Nat), aggLoop items st i = st := by
  induction items with
  | nil => intro st i; rfl
  | cons it rest ih =>
      intro st i
      simp only [aggLoop, rowBody_error]
      exact ih st (i + 1)

/-- C1: for every input list, createProductGroups returns an empty
productGroups mapping, empty categories and groupCount zero, because every
row raises at the self-referential binding of cleanCondition and is skipped
by the per-row handler, while totalItems is still the input length. -/
theorem c1_createProductGroups_always_empty (appleProducts : List Item) :
    createProductGroups appleProducts =
      { productGroups := [], categories := [],
        totalItems := appleProducts.length, groupCount := 0 } := by
  simp only [createProductGroups, aggLoop_const]
  rfl

/-- C3 counterexample: the claim maps Fair to D, P to P and Poor to P and
every unrecognized input to A, but cleanCondition grades by substring
containment with no P branch, so Fair (containing the letter A) grades A,
P and Poor fall through to the default A, and Broken (containing the
letter B) grades B; the other variant, normalizeCondition, passes the
unrecognized input Mint through unchanged instead of defaulting to A. -/
theorem c3_counterexample :
    cleanCondition "Fair" = "A" ∧ cleanCondition "P" = "A"
    ∧ cleanCondition "Poor" = "A" ∧ cleanCondition "Broken" = "B"
    ∧ Enhanced.normalizeCondition "Mint" = "Mint" := by
  decide

/-- C3 amended: cleanCondition is total with range contained in A, B, C, D
(it never returns P): it uppercases and trims and returns the first grade
whose letter or word is contained in the value, else A; the first-variant
normalizeCondition instead matches exactly, maps POOR to P, and passes
unrecognized input through unchanged. -/
theorem c3_amended_cleanCondition_range :
    (∀ s, cleanCondition s = "A" ∨ cleanCondition s = "B"
      ∨ cleanCondition s = "C" ∨ cleanCondition s = "D")
    ∧ cleanCondition "Excellent" = "A" ∧ cleanCondition "Very Good" = "B"
    ∧ cleanCondition "Good" = "C" ∧ cleanCondition "Fair" = "A"
    ∧ Enhanced.normalizeCondition "POOR" = "P"
    ∧ Enhanced.normalizeCondition "fair" = "D" := by
  refine ⟨fun s => ?_, by decide, by decide, by decide, by decide, by decide, by decide⟩
  simp only [cleanCondition]
  split
  · exact Or.inl rfl
  · split
    · exact Or.inl rfl
    · split
      · exact Or.inr (Or.inl rfl)
      · split
        · exact Or.inr (Or.inr (Or.inl rfl))
        · split
          · exact Or.inr (Or.inr (Or.inr rfl))
          · exact Or.inl rfl

/-- C5 counterexample: a row missing both model and category is not
skipped: with a single empty row the aggregator still reports
totalItems equal to 1 where the claim demands 0. -/
theorem c5_counterexample :
    (createProductGroups [[]]).totalItems = 1
    ∧ findValue ([] : Item) ["Model", "Product", "Name"] = ""
    ∧ findValue ([] : Item) ["Sub-Category", "Category", "Type"] = ""
    ∧ (1 : Nat) ≠ 0 := by
  decide

/-- C5 amended: totalItems equals the number of input rows,
unconditionally: rows missing both model and category are given defaults
rather than skipped, and even rows dropped by the per-row error handler
are counted. -/
theorem c5_amended_totalItems_is_input_length (appleProducts : List Item) :
    (createProductGroups appleProducts).totalItems = appleProducts.length := rfl

/-- C7: a row whose resolved stock is present and equal to 0 or containing
out, case-insensitively, is classified false regardless of every inclusion
signal: the out-of-stock exclusion is checked first in the filter. -/
theorem c7_stock_exclusion_wins (item : Item)
    (h1 : resolvedStock item ≠ "")
    (h2 : resolvedStock item = "0"
      ∨ strIncludes (toLowerS (resolvedStock item)) "out" = true) :
    classify item = false := by
  unfold classify
  split
  · rfl
  · next hn => exact absurd ⟨h1, h2⟩ hn

/-- Witness for C7 at a concrete Apple-branded, zero-stock row. -/
theorem c7_witness :
    classify [("Brand", "Apple"), ("Stock", "0")] = false :=
  c7_stock_exclusion_wins [("Brand", "Apple"), ("Stock", "0")]
    (by decide) (Or.inl (by decide))

theorem ratFloor_eq_floor (q : ℚ) : ratFloor q = ⌊q⌋ := Rat.floor_def.symm

theorem mathRound_eq_round (q : ℚ) : mathRound q = round q := by
  rw [mathRound, ratFloor_eq_floor, round_eq]

/-- C4 counterexample: for the MacBook Pro table value 1999 with processor
M3 and storage 1TB the claim demands round(1999 times 1.2 times 1.3) =
3118, but estimatePrice ignores the processor entirely and reads the digit
run of 1TB as 1, below every threshold, returning 1999. -/
theorem c4_counterexample :
    estimatePrice "MacBook Pro" "1TB" = 1999
    ∧ specBasePrice "MacBook Pro" "M3" "1TB" = 3118
    ∧ (1999 : Int) ≠ 3118 := by
  have hd : firstDigitRun "1TB" = some 1 := by decide
  have hm : strIncludes "M3" "M3" = true := by decide
  have ht : strIncludes (toLowerS "1TB") "tb" = true := by decide
  refine ⟨?_, ?_, by decide⟩
  · simp [estimatePrice, basePriceOf, hd]
    rw [mathRound_eq_round]
    norm_num
  · simp [specBasePrice, specProcessorAdj, specStorageAdj, specStorageGB,
      basePriceOf, hd, hm, ht]
    rw [mathRound_eq_round]
    norm_num [round_eq, Int.floor_eq_iff]

/-- C4 amended: basePrice equals the per-type table value multiplied by the
storage-tier adjustment alone, where the tier is decided by the first digit
run of the storage string (at least 1000 gives 1.3, at least 512 gives
1.15, so 1TB and 2TB receive no adjustment), rounded; no processor
adjustment is applied. -/
theorem c4_amended_price_storage_only (productType storage : String) :
    estimatePrice productType storage = amendedBasePrice productType storage := by
  simp only [estimatePrice, amendedBasePrice, amendedStorageAdj]
  by_cases h : storage ≠ "" ∧ storage ≠ "Unknown"
  · rw [if_pos h]
    cases hr : firstDigitRun storage with
    | none => dsimp only; rw [mul_one]
    | some n =>
        dsimp only
        by_cases h1 : n ≥ 1000
        · rw [if_pos h1, if_pos h1]
        · rw [if_neg h1, if_neg h1]
          by_cases h2 : n ≥ 512
          · rw [if_pos h2, if_pos h2]
          · rw [if_neg h2, if_neg h2, mul_one]
  · rw [if_neg h]
    have hnone : firstDigitRun storage = none := by
      rcases not_and_or.mp h with h1 | h1
      · rw [not_ne_iff.mp h1]; decide
      · rw [not_ne_iff.mp h1]; decide
    rw [hnone, mul_one]

/-- C6 counterexample: the claim includes category keywords accessories
(among others) and model keyword magic, but the filter tests only laptop,
macbook, tablet, phone, desktop on the category and macbook, ipad, iphone,
imac, airpod on the model: a row with category Accessories is kept by the
claimed rule and rejected by classify. -/
theorem c6_counterexample :
    classify [("Category", "Accessories"), ("Brand", "BrandX"),
      ("Model", "Dock Station")] = false
    ∧ claimClassify [("Category", "Accessories"), ("Brand", "BrandX"),
      ("Model", "Dock Station")] = true := by
  decide

/-- C6 amended: for every row, classify is true exactly when the row is not
excluded by the out-of-stock rule and the brand contains apple, or the
category contains one of laptop, macbook, tablet, phone, desktop, or the
model contains one of macbook, ipad, iphone, imac, airpod; the keywords
accessory, accessories, mini, air, pro and magic of the claim are not
tested by this filter. -/
theorem c6_amended_classify_characterization (item : Item) :
    classify item = true ↔
      ¬ (resolvedStock item ≠ "" ∧ (resolvedStock item = "0"
            ∨ strIncludes (toLowerS (resolvedStock item)) "out" = true))
      ∧ (strIncludes (toLowerS (resolvedBrand item)) "apple" = true
         ∨ strIncludes (toLowerS (resolvedCategory item)) "laptop" = true
         ∨ strIncludes (toLowerS (resolvedCategory item)) "macbook" = true
         ∨ strIncludes (toLowerS (resolvedCategory item)) "tablet" = true
         ∨ strIncludes (toLowerS (resolvedCategory item)) "phone" = true
         ∨ strIncludes (toLowerS (resolvedCategory item)) "desktop" = true
         ∨ strIncludes (toLowerS (resolvedModel item)) "macbook" = true
         ∨ strIncludes (toLowerS (resolvedModel item)) "ipad" = true
         ∨ strIncludes (toLowerS (resolvedModel item)) "iphone" = true
         ∨ strIncludes (toLowerS (resolvedModel item)) "imac" = true
         ∨ strIncludes (toLowerS (resolvedModel item)) "airpod" = true) := by
  unfold classify
  split
  · next h => simp [h]
  · next h => simp [h, Bool.or_eq_true, or_assoc]

theorem aget?_append {α : Type} (l1 l2 : List (String × α)) (k : String) :
    aget? (l1 ++ l2) k =
      if (aget? l1 k).isSome then aget? l1 k else aget? l2 k := by
  induction l1 with
  | nil => simp [aget?]
  | cons p t ih =>
      obtain ⟨k', v⟩ := p
      by_cases h : k' = k
      · simp [aget?, h]
      · simp [aget?, h, ih]

theorem aget?_amodify_self {α : Type} (k : String) (f : α → α)
    (l : List (String × α)) : aget? (amodify k f l) k = (aget? l k).map f := by
  induction l with
  | nil => rfl
  | cons p t ih =>
      obtain ⟨k', v⟩ := p
      by_cases h : k' = k
      · simp [amodify, aget?, h]
      · simp [amodify, aget?, h, ih]

theorem aget?_amodify_ne {α : Type} (k k' : String) (hne : k ≠ k') (f : α → α)
    (l : List (String × α)) : aget? (amodify k f l) k' = aget? l k' := by
  induction l with
  | nil => rfl
  | cons p t ih =>
      obtain ⟨k'', v⟩ := p
      by_cases h : k'' = k
      · subst h
        simp [amodify, aget?, hne]
      · by_cases h2 : k'' = k'
        · simp [amodify, aget?, h, h2, Ne.symm hne]
        · simp [amodify, aget?, h, h2, ih]

theorem aget?_aensure_self {α : Type} (k : String) (i : α)
    (l : List (String × α)) :
    aget? (aensure k i l) k = some ((aget? l k).getD i) := by
  unfold aensure
  by_cases h : (aget? l k).isSome
  · rw [if_pos h]
    obtain ⟨v, hv⟩ := Option.isSome_iff_exists.mp h
    simp [hv]
  · rw [if_neg h]
    have hn : aget? l k = none := Option.not_isSome_iff_eq_none.mp h
    rw [aget?_append, hn]
    simp [aget?]

theorem aget?_aensure_ne {α : Type} (k k' : String) (hne : k ≠ k') (i : α)
    (l : List (String × α)) : aget? (aensure k i l) k' = aget? l k' := by
  unfold aensure
  split
  · rfl
  · rw [aget?_append]
    have : aget? [(k, i)] k' = none := by simp [aget?, hne]
    rw [this]
    cases hv : aget? l k' <;> simp [hv]

theorem keys_amodify {α : Type} (k : String) (f : α → α)
    (l : List (String × α)) :
    (amodify k f l).map Prod.fst = l.map Prod.fst := by
  induction l with
  | nil => rfl
  | cons p t ih =>
      obtain ⟨k', v⟩ := p
      by_cases h : k' = k
      · simp [amodify, h]
      · simp [amodify, h, ih]

theorem keys_aensure {α : Type} (k : String) (i : α) (l : List (String × α)) :
    (aensure k i l).map Prod.fst =
      if (aget? l k).isSome then l.map Prod.fst else l.map Prod.fst ++ [k] := by
  unfold aensure
  split <;> simp_all

theorem keys_rowCont (st : AggState) (item : Item)
    (model productType cleanProcessor cleanStorage cleanMemory cleanColor
      cleanConditionVal serialNumber : String) (stock : Int) :
    (rowCont st item model productType cleanProcessor cleanStorage cleanMemory
        cleanColor cleanConditionVal serialNumber stock).groups.map Prod.fst =
      (if (aget? st.groups (groupKeyOf productType cleanProcessor cleanStorage)).isSome
       then st.groups.map Prod.fst
       else st.groups.map Prod.fst
          ++ [groupKeyOf productType cleanProcessor cleanStorage]) := by
  simp only [rowCont]
  rw [keys_amodify, keys_amodify, keys_amodify, keys_aensure]

/-- C2 counterexample: the claimed key includes the normalized memory, so
the keys of two rows differing only in memory (16GB against 32GB) would
differ; but the grouping key construction of the per-row body assigns both
rows the single key MacBook_Pro_M3_512GB, built without the memory. -/
theorem c2_counterexample :
    specGroupKey "MacBook Pro" "M3" "512GB" "16GB"
        ≠ specGroupKey "MacBook Pro" "M3" "512GB" "32GB"
    ∧ (rowCont aggEmpty [] "MacBook Pro 14" "MacBook Pro" "M3" "512GB" "16GB"
        "Silver" "A" "" 1).groups.map Prod.fst = ["MacBook_Pro_M3_512GB"]
    ∧ (rowCont aggEmpty [] "MacBook Pro 14" "MacBook Pro" "M3" "512GB" "32GB"
        "Silver" "A" "" 1).groups.map Prod.fst = ["MacBook_Pro_M3_512GB"] := by
  refine ⟨by decide, ?_, ?_⟩ <;>
    · rw [keys_rowCont]
      decide

/-- C2 amended: the group key the per-row body assigns is the join of
productType, processor and storage with hyphens, with every
non-alphanumeric character replaced by underscore; memory and displaySize
are not part of the key, so two rows differing only in normalized memory
receive the same key. (In the shipped code the per-row body raises before
reaching this assignment, so no row is actually placed in a group.) -/
theorem c2_amended_key_ignores_memory (st : AggState) (item : Item)
    (model productType cleanProcessor cleanStorage m1 m2 cleanColor
      cleanConditionVal serialNumber : String) (stock : Int) :
    (rowCont st item model productType cleanProcessor cleanStorage m1
        cleanColor cleanConditionVal serialNumber stock).groups.map Prod.fst
      = (rowCont st item model productType cleanProcessor cleanStorage m2
        cleanColor cleanConditionVal serialNumber stock).groups.map Prod.fst
    ∧ (rowCont st item model productType cleanProcessor cleanStorage m1
        cleanColor cleanConditionVal serialNumber stock).groups.map Prod.fst
      = (if (aget? st.groups
            (groupKeyOf productType cleanProcessor cleanStorage)).isSome
         then st.groups.map Prod.fst
         else st.groups.map Prod.fst
            ++ [groupKeyOf productType cleanProcessor cleanStorage]) :=
  ⟨(keys_rowCont st item model productType cleanProcessor cleanStorage m1
      cleanColor cleanConditionVal serialNumber stock).trans
    (keys_rowCont st item model productType cleanProcessor cleanStorage m2
      cleanColor cleanConditionVal serialNumber stock).symm,
   keys_rowCont st item model productType cleanProcessor cleanStorage m1
      cleanColor cleanConditionVal serialNumber stock⟩

/-- C10: a row whose body raises is skipped inside the loop, no exception
escapes the aggregation call, and the groups and categories built from the
other rows are returned unaffected. -/
theorem c10_row_error_isolated (l1 : List Item) (r : Item) (l2 : List Item)
    (e : String) (h : ∀ st i, rowBody st r i = Except.error e) :
    (createProductGroups (l1 ++ r :: l2)).productGroups
        = (createProductGroups (l1 ++ l2)).productGroups
    ∧ (createProductGroups (l1 ++ r :: l2)).categories
        = (createProductGroups (l1 ++ l2)).categories
    ∧ (createProductGroups (l1 ++ r :: l2)).groupCount
        = (createProductGroups (l1 ++ l2)).groupCount := by
  refine ⟨?_, ?_, ?_⟩ <;> simp [createProductGroups, aggLoop_const]

/-- Witness for C10: the empty row always raises at the cleanCondition
binding, and dropping it from a singleton input leaves groups, categories
and groupCount unchanged. -/
theorem c10_witness :
    (createProductGroups ([] ++ ([] : Item) :: [])).productGroups
        = (createProductGroups ([] ++ [])).productGroups
    ∧ (createProductGroups ([] ++ ([] : Item) :: [])).categories
        = (createProductGroups ([] ++ [])).categories
    ∧ (createProductGroups ([] ++ ([] : Item) :: [])).groupCount
        = (createProductGroups ([] ++ [])).groupCount :=
  c10_row_error_isolated [] [] [] tdzError (fun _ _ => rfl)

theorem aget?_eStep_chain {α : Type} (K k : String) (G0 : α) (f1 f2 f3 : α → α)
    (l : List (String × α)) :
    aget? (amodify K f3 (amodify K f2 (amodify K f1 (aensure K G0 l)))) k =
      if K = k then some (f3 (f2 (f1 ((aget? l k).getD G0)))) else aget? l k := by
  by_cases h : K = k
  · subst h
    rw [if_pos rfl, aget?_amodify_self, aget?_amodify_self, aget?_amodify_self,
      aget?_aensure_self]
    rfl
  · rw [if_neg h, aget?_amodify_ne K k h, aget?_amodify_ne K k h,
      aget?_amodify_ne K k h, aget?_aensure_ne K k h]

theorem aget?_amodify_aensure {α : Type} (K k : String) (i : α) (f : α → α)
    (l : List (String × α)) :
    aget? (amodify K f (aensure K i l)) k =
      if K = k then some (f ((aget? l k).getD i)) else aget? l k := by
  by_cases h : K = k
  · subst h
    rw [if_pos rfl, aget?_amodify_self, aget?_aensure_self]
    rfl
  · rw [if_neg h, aget?_amodify_ne K k h, aget?_aensure_ne K k h]

theorem quantityAtN_eStep (gs : List (String × Enhanced.EGroup)) (it : Item)
    (k vk : String) :
    quantityAtN (Enhanced.eStep gs it) k vk =
      quantityAtN gs k vk
        + (if Enhanced.keyOf it = k ∧ Enhanced.vkOf it = vk then 1 else 0) := by
  unfold quantityAtN Enhanced.keyOf Enhanced.vkOf
  simp only [Enhanced.eStep]
  rw [aget?_eStep_chain]
  by_cases hk : Enhanced.createEnhancedProductKey (Enhanced.analyzeProduct it) = k
  · rw [if_pos hk]
    dsimp only
    rw [aget?_amodify_aensure]
    by_cases hvk : Enhanced.vkOfInfo (Enhanced.analyzeProduct it) = vk
    · rw [if_pos hvk]
      dsimp only
      cases hag : aget? gs k with
      | none => simp [aget?, hk, hvk]
      | some g =>
          cases hv : aget? g.variants vk with
          | none => simp [aget?, hk, hvk, hv]
          | some v => simp [aget?, hk, hvk, hv]
    · rw [if_neg hvk]
      cases hag : aget? gs k with
      | none => simp [aget?, hvk]
      | some g =>
          cases hv : aget? g.variants vk with
          | none => simp [aget?, hvk, hv]
          | some v => simp [aget?, hvk, hv]
  · rw [if_neg hk]
    cases hag : aget? gs k with
    | none => simp [hk]
    | some g => simp [hk]

theorem itemsLenAt_eStep (gs : List (String × Enhanced.EGroup)) (it : Item)
    (k : String) :
    itemsLenAt (Enhanced.eStep gs it) k =
      itemsLenAt gs k + (if Enhanced.keyOf it = k then 1 else 0) := by
  unfold itemsLenAt Enhanced.keyOf
  simp only [Enhanced.eStep]
  rw [aget?_eStep_chain]
  by_cases hk : Enhanced.createEnhancedProductKey (Enhanced.analyzeProduct it) = k
  · rw [if_pos hk]
    dsimp only
    cases hag : aget? gs k with
    | none => simp [hk]
    | some g => simp [hk]
  · rw [if_neg hk]
    cases hag : aget? gs k with
    | none => simp [hk]
    | some g => simp [hk]

theorem quantityAtN_foldl (items : List Item)
    (st : List (String × Enhanced.EGroup)) (k vk : String) :
    quantityAtN (items.foldl Enhanced.eStep st) k vk =
      quantityAtN st k vk
        + items.countP
            (fun it => decide (Enhanced.keyOf it = k ∧ Enhanced.vkOf it = vk)) := by
  induction items generalizing st with
  | nil => simp
  | cons it rest ih =>
      simp only [List.foldl_cons, List.countP_cons]
      rw [ih, quantityAtN_eStep]
      simp only [decide_eq_true_eq]
      omega

theorem itemsLenAt_foldl (items : List Item)
    (st : List (String × Enhanced.EGroup)) (k : String) :
    itemsLenAt (items.foldl Enhanced.eStep st) k =
      itemsLenAt st k + items.countP (fun it => decide (Enhanced.keyOf it = k)) := by
  induction items generalizing st with
  | nil => simp
  | cons it rest ih =>
      simp only [List.foldl_cons, List.countP_cons]
      rw [ih, itemsLenAt_eStep]
      simp only [decide_eq_true_eq]
      omega

theorem keys_eStep (gs : List (String × Enhanced.EGroup)) (it : Item) :
    (Enhanced.eStep gs it).map Prod.fst =
      if (aget? gs (Enhanced.keyOf it)).isSome then gs.map Prod.fst
      else gs.map Prod.fst ++ [Enhanced.keyOf it] := by
  unfold Enhanced.keyOf
  simp only [Enhanced.eStep]
  rw [keys_amodify, keys_amodify, keys_amodify, keys_aensure]

theorem aget?_eStep_isSome (gs : List (String × Enhanced.EGroup)) (it : Item) :
    (aget? (Enhanced.eStep gs it) (Enhanced.keyOf it)).isSome = true := by
  unfold Enhanced.keyOf
  simp only [Enhanced.eStep]
  rw [aget?_eStep_chain, if_pos rfl]
  rfl

/-- C8: aggregating one row twice with groupProductsEnhanced yields exactly
one group, with the same key as aggregating it once; the matching variant
quantity doubles from 1 to 2 and the items list length doubles from 1 to
2; no additional group is created. -/
theorem c8_duplicate_row_doubles (it : Item) :
    (Enhanced.groupProductsEnhanced [it]).map Prod.fst = [Enhanced.keyOf it]
    ∧ (Enhanced.groupProductsEnhanced [it, it]).map Prod.fst = [Enhanced.keyOf it]
    ∧ quantityAtN (Enhanced.groupProductsEnhanced [it])
        (Enhanced.keyOf it) (Enhanced.vkOf it) = 1
    ∧ quantityAtN (Enhanced.groupProductsEnhanced [it, it])
        (Enhanced.keyOf it) (Enhanced.vkOf it)
      = 2 * quantityAtN (Enhanced.groupProductsEnhanced [it])
        (Enhanced.keyOf it) (Enhanced.vkOf it)
    ∧ itemsLenAt (Enhanced.groupProductsEnhanced [it]) (Enhanced.keyOf it) = 1
    ∧ itemsLenAt (Enhanced.groupProductsEnhanced [it, it]) (Enhanced.keyOf it)
      = 2 * itemsLenAt (Enhanced.groupProductsEnhanced [it]) (Enhanced.keyOf it) := by
  have hq1 : quantityAtN (Enhanced.groupProductsEnhanced [it])
      (Enhanced.keyOf it) (Enhanced.vkOf it) = 1 := by
    unfold Enhanced.groupProductsEnhanced
    rw [quantityAtN_foldl]
    simp [quantityAtN, aget?]
  have hq2 : quantityAtN (Enhanced.groupProductsEnhanced [it, it])
      (Enhanced.keyOf it) (Enhanced.vkOf it) = 2 := by
    unfold Enhanced.groupProductsEnhanced
    rw [quantityAtN_foldl]
    simp [quantityAtN, aget?]
  have hi1 : itemsLenAt (Enhanced.groupProductsEnhanced [it])
      (Enhanced.keyOf it) = 1 := by
    unfold Enhanced.groupProductsEnhanced
    rw [itemsLenAt_foldl]
    simp [itemsLenAt, aget?]
  have hi2 : itemsLenAt (Enhanced.groupProductsEnhanced [it, it])
      (Enhanced.keyOf it) = 2 := by
    unfold Enhanced.groupProductsEnhanced
    rw [itemsLenAt_foldl]
    simp [itemsLenAt, aget?]
  have hk1 : (Enhanced.groupProductsEnhanced [it]).map Prod.fst
      = [Enhanced.keyOf it] := by
    unfold Enhanced.groupProductsEnhanced
    simp only [List.foldl_cons, List.foldl_nil]
    rw [keys_eStep]
    simp [aget?]
  have hk2 : (Enhanced.groupProductsEnhanced [it, it]).map Prod.fst
      = [Enhanced.keyOf it] := by
    have hk1' := hk1
    unfold Enhanced.groupProductsEnhanced at hk1' ⊢
    simp only [List.foldl_cons, List.foldl_nil] at hk1' ⊢
    rw [keys_eStep, aget?_eStep_isSome]
    simpa using hk1'
  exact ⟨hk1, hk2, hq1, by rw [hq1, hq2], hi1, by rw [hi1, hi2]⟩

/-- C9 counterexample: the claim says the final variant quantity equals the
sum of the stock values of the matching rows, but groupProductsEnhanced
increments quantity by exactly 1 per row and never reads the stock: a
single MacBook Pro row with stock 3 produces a variant with quantity 1,
not 3. -/
theorem c9_counterexample :
    quantityAtN
        (Enhanced.groupProductsEnhanced [[("Model", "MacBook Pro"), ("Stock", "3")]])
        "MacBook_Pro_13-inch_Unknown_Unknown_Unknown" "Default_A" = 1
    ∧ lookup [("Model", "MacBook Pro"), ("Stock", "3")] "Stock" = "3"
    ∧ (1 : Nat) ≠ 3 := by
  decide

/-- C9 amended: within one pass of groupProductsEnhanced, every variant
quantity is monotonically non-decreasing (the quantity after a prefix of
the input never exceeds the final quantity) and, when the pass ends, equals
the number of rows assigned to that group key and variant key: each row
contributes exactly 1 regardless of its stock value. (In the other
aggregator, createProductGroups, quantity would be incremented by the
parsed stock with fallback 1, but no variant is ever created there because
every row errors; see C1.) -/
theorem c9_amended_quantity_counts_rows (l1 l2 : List Item) (k vk : String) :
    quantityAtN (Enhanced.groupProductsEnhanced (l1 ++ l2)) k vk
      = (l1 ++ l2).countP
          (fun it => decide (Enhanced.keyOf it = k ∧ Enhanced.vkOf it = vk))
    ∧ quantityAtN (Enhanced.groupProductsEnhanced l1) k vk
        ≤ quantityAtN (Enhanced.groupProductsEnhanced (l1 ++ l2)) k vk := by
  have h0 : ∀ items : List Item,
      quantityAtN (Enhanced.groupProductsEnhanced items) k vk
        = items.countP
            (fun it => decide (Enhanced.keyOf it = k ∧ Enhanced.vkOf it = vk)) := by
    intro items
    unfold Enhanced.groupProductsEnhanced
    rw [quantityAtN_foldl]
    simp [quantityAtN, aget?]
  refine ⟨h0 (l1 ++ l2), ?_⟩
  rw [h0, h0, List.countP_append]
  omega

/-- C8 counterexample: in createProductGroups, the aggregator the claim
cites first, aggregating the same row twice does not yield exactly one
group: every row errors at the cleanCondition binding, so duplication
yields zero groups. -/
theorem c8_counterexample :
    (createProductGroups [[("Model", "MacBook Pro")],
        [("Model", "MacBook Pro")]]).groupCount = 0
    ∧ (0 : Nat) ≠ 1 := by
  decide
